import Mathlib

/-!
Shallow embedding of the greed-rs frame orchestration harness
(src/rendering_context.rs, src/context.rs, src/application.rs).

External collaborators (wgpu device/queue, winit windows, imgui) are opaque
handles in the source; here they are either omitted (when no claim observes
them) or modelled by an explicit environment:

* whether a `swap_chain.get_current_frame()` attempt succeeds is decided by
  the GPU backend, so `get_current_frame` takes the outcomes of its (at most
  two) attempts as explicit booleans;
* whether `imgui_platform.prepare_frame` succeeds is likewise an explicit
  boolean in `FrameEnv`;
* GPU work recorded on the command encoder is reified as a `List GpuOp`
  trace, and swap-chain reconfigurations / acquisition attempts as a
  `List SMEvent` trace, so the claims about "exactly one reconfiguration"
  and pass ordering are statable;
* a Rust `panic!` / `expect` failure is `none` (the process dies).
-/

namespace Greed

/-- wgpu::TextureFormat — only the variant the source uses. -/
inductive TextureFormat where
  | Bgra8Unorm
deriving DecidableEq, Repr

/-- wgpu::PresentMode — only the variant the source uses. -/
inductive PresentMode where
  | Fifo
deriving DecidableEq, Repr

/-- wgpu::TextureUsage — only the variant the source uses. -/
inductive TextureUsage where
  | OUTPUT_ATTACHMENT
deriving DecidableEq, Repr

/-- wgpu::SwapChainDescriptor as built in RenderingContext::setup. -/
structure SwapChainDescriptor where
  usage : TextureUsage
  format : TextureFormat
  width : Nat
  height : Nat
  present_mode : PresentMode
deriving DecidableEq, Repr

/-- A wgpu::SwapChain: opaque GPU object; what the program can observe of it
is the descriptor it was created from (`device.create_swap_chain(&surface, &sc_desc)`). -/
structure SwapChain where
  desc : SwapChainDescriptor
deriving DecidableEq, Repr

/-- device.create_swap_chain: the new swap chain is configured to the given
descriptor. -/
def create_swap_chain (d : SwapChainDescriptor) : SwapChain := ⟨d⟩

/-- A wgpu::SwapChainFrame: one frame backbuffer image; its size is the
size the swap chain was configured with. -/
structure SwapChainFrame where
  width : Nat
  height : Nat
deriving DecidableEq, Repr

/-- Instrumentation trace of the Surface Manager GPU-side actions:
swap-chain reconfigurations and acquisition attempts. -/
inductive SMEvent where
  | reconfigure (width height : Nat)
  | attempt (ok : Bool)
deriving DecidableEq, Repr

/-- RenderingContext (src/rendering_context.rs). The instance, surface,
adapter, device and queue fields are opaque external handles with no
observable state relevant to the claims, so they are not carried. -/
structure RenderingContext where
  sc_desc : SwapChainDescriptor
  swap_chain : SwapChain
  resize : Bool
deriving DecidableEq, Repr

/-- RenderingContext::resize_request: record the new dimensions in sc_desc
and set the pending-resize flag; nothing else. -/
def resize_request (rc : RenderingContext) (width height : Nat) : RenderingContext :=
  { rc with
    sc_desc := { rc.sc_desc with width := width, height := height }
    resize := true }

/-- RenderingContext::get_current_frame. `a1` is the backend verdict on the
first `swap_chain.get_current_frame()` attempt, `a2` on the retry (consulted
only if the first fails). Returns the acquired frame (`none` = the final
`expect` panicked), the updated state, and the trace of surface-manager
actions in order. -/
def get_current_frame (rc : RenderingContext) (a1 a2 : Bool) :
    Option SwapChainFrame × RenderingContext × List SMEvent :=
  let rc1 : RenderingContext :=
    if rc.resize then
      { rc with swap_chain := create_swap_chain rc.sc_desc, resize := false }
    else rc
  let t1 : List SMEvent :=
    if rc.resize then [SMEvent.reconfigure rc.sc_desc.width rc.sc_desc.height] else []
  if a1 then
    (some ⟨rc1.swap_chain.desc.width, rc1.swap_chain.desc.height⟩, rc1,
      t1 ++ [SMEvent.attempt true])
  else
    let rc2 : RenderingContext := { rc1 with swap_chain := create_swap_chain rc1.sc_desc }
    let t2 : List SMEvent :=
      t1 ++ [SMEvent.attempt false,
             SMEvent.reconfigure rc1.sc_desc.width rc1.sc_desc.height]
    if a2 then
      (some ⟨rc2.swap_chain.desc.width, rc2.swap_chain.desc.height⟩, rc2,
        t2 ++ [SMEvent.attempt true])
    else
      (none, rc2, t2 ++ [SMEvent.attempt false])

/-- Number of swap-chain reconfigurations in a surface-manager trace. -/
def reconfigures (t : List SMEvent) : Nat :=
  t.countP fun e => match e with | SMEvent.reconfigure _ _ => true | _ => false

/-- Number of acquisition attempts in a surface-manager trace. -/
def acquire_attempts (t : List SMEvent) : Nat :=
  t.countP fun e => match e with | SMEvent.attempt _ => true | _ => false

/-- Claim C1: in one get_current_frame call, a successful first attempt does
no reconfiguration beyond the pending-resize one; a failed first attempt adds
exactly one reconfiguration and exactly one retry; the call returns an image
exactly when the first attempt or the retry succeeds (otherwise it is fatal),
and never makes a third attempt. -/
theorem acquisition_retry_policy (rc : RenderingContext) (a1 a2 : Bool) :
    reconfigures (get_current_frame rc a1 a2).2.2
        = (if rc.resize then 1 else 0) + (if a1 then 0 else 1)
    ∧ acquire_attempts (get_current_frame rc a1 a2).2.2 = (if a1 then 1 else 2)
    ∧ (get_current_frame rc a1 a2).1.isSome = (a1 || a2) := by
  by_cases hr : rc.resize <;> by_cases h1 : a1 <;> by_cases h2 : a2 <;>
    simp [get_current_frame, reconfigures, acquire_attempts, hr, h1, h2,
      List.countP_append, List.countP_cons]

/-- A burst of resize_request calls, applied in order. -/
def apply_resizes (rc : RenderingContext) (reqs : List (Nat × Nat)) : RenderingContext :=
  reqs.foldl (fun r p => resize_request r p.1 p.2) rc

theorem apply_resizes_nil (rc : RenderingContext) : apply_resizes rc [] = rc := rfl

theorem apply_resizes_cons (rc : RenderingContext) (p : Nat × Nat) (reqs : List (Nat × Nat)) :
    apply_resizes rc (p :: reqs) = apply_resizes (resize_request rc p.1 p.2) reqs := rfl

/-- After a nonempty burst of resize requests, the pending flag is set, the
descriptor holds the dimensions of the last request, and the swap chain is
untouched. -/
theorem apply_resizes_last (reqs : List (Nat × Nat)) :
    ∀ (rc : RenderingContext) (w h : Nat), reqs.getLast? = some (w, h) →
      (apply_resizes rc reqs).resize = true
      ∧ (apply_resizes rc reqs).sc_desc = { rc.sc_desc with width := w, height := h }
      ∧ (apply_resizes rc reqs).swap_chain = rc.swap_chain := by
  induction reqs with
  | nil => intro rc w h hlast; simp at hlast
  | cons p rest ih =>
    intro rc w h hlast
    cases rest with
    | nil =>
      simp [List.getLast?] at hlast
      rcases p with ⟨pw, ph⟩
      cases hlast
      simp [apply_resizes, resize_request]
    | cons q rest2 =>
      have hlast2 : (q :: rest2).getLast? = some (w, h) := by
        simpa [List.getLast?_cons_cons] using hlast
      have h2 := ih (resize_request rc p.1 p.2) w h hlast2
      rw [apply_resizes_cons]
      refine ⟨h2.1, ?_, ?_⟩
      · rw [h2.2.1]
      · rw [h2.2.2]; rfl

/-- Claim C3: a burst of resize requests ending with (w, h), followed by a
successful acquisition, performs exactly one reconfiguration — to (w, h) —
and yields a frame of size (w, h). -/
theorem resize_coalescing (rc : RenderingContext) (reqs : List (Nat × Nat))
    (w h : Nat) (a2 : Bool) (hlast : reqs.getLast? = some (w, h)) :
    (get_current_frame (apply_resizes rc reqs) true a2).2.2
        = [SMEvent.reconfigure w h, SMEvent.attempt true]
    ∧ (get_current_frame (apply_resizes rc reqs) true a2).1 = some ⟨w, h⟩ := by
  obtain ⟨hflag, hdesc, -⟩ := apply_resizes_last reqs rc w h hlast
  constructor <;> simp [get_current_frame, hflag, hdesc, create_swap_chain]

/-- Claim C5: after any acquisition that follows a nonempty burst of resize
requests, the configuration holds the last requested dimensions, the
pending-resize flag is clear, and the swap chain has been reconfigured to
the configuration current at the start of the call. -/
theorem config_after_acquire (rc : RenderingContext) (reqs : List (Nat × Nat))
    (w h : Nat) (a1 a2 : Bool) (hlast : reqs.getLast? = some (w, h)) :
    (get_current_frame (apply_resizes rc reqs) a1 a2).2.1.resize = false
    ∧ (get_current_frame (apply_resizes rc reqs) a1 a2).2.1.sc_desc.width = w
    ∧ (get_current_frame (apply_resizes rc reqs) a1 a2).2.1.sc_desc.height = h
    ∧ (get_current_frame (apply_resizes rc reqs) a1 a2).2.1.swap_chain
        = create_swap_chain (apply_resizes rc reqs).sc_desc := by
  obtain ⟨hflag, hdesc, -⟩ := apply_resizes_last reqs rc w h hlast
  by_cases h1 : a1 <;> by_cases h2 : a2 <;>
    simp [get_current_frame, hflag, hdesc, create_swap_chain, h1, h2]

/-- wgpu::Color: an rgba quadruple. The source only ever constructs the
constant BLACK and passes colors through opaquely, so exact rationals model
the f64 fields faithfully here. -/
structure Color where
  r : Rat
  g : Rat
  b : Rat
  a : Rat
deriving DecidableEq, Repr

/-- wgpu::Color::BLACK = { r: 0.0, g: 0.0, b: 0.0, a: 1.0 }. -/
def Color.BLACK : Color := ⟨0, 0, 0, 1⟩

/-- wgpu::LoadOp for a render-pass color attachment. -/
inductive LoadOp where
  | clear (c : Color)
  | load
deriving DecidableEq, Repr

/-- GPU work recorded against the acquired image during one redraw:
render passes opened on the encoder (identified by their load operation)
and the final queue submission. -/
inductive GpuOp where
  | beginRenderPass (l : LoadOp)
  | submit
deriving DecidableEq, Repr

/-- winit::event::WindowEvent — the variants the orchestrator matches on,
plus a collapsed `Other` for every variant it ignores. -/
inductive WindowEvent where
  | CloseRequested
  | Resized (width height : Nat)
  | Other
deriving DecidableEq, Repr

/-- winit::event::Event — the variants the orchestrator matches on, plus a
collapsed `Other` for every variant it ignores. -/
inductive Event where
  | WindowEvent (e : WindowEvent)
  | RedrawEventsCleared
  | Other
deriving DecidableEq, Repr

/-- The Application trait (src/application.rs) as a record of hooks over an
application state type σ (the Rust `Self`). `render` receives the acquired
frame and may record GPU work of its own, returned as a trace. `update`
and `build_ui` take the opaque device/queue/ui handles in Rust; those
collaborators carry no state observed by any claim, so the hooks here are
state transformers. -/
structure Application (σ : Type) where
  update : σ → σ
  render : σ → SwapChainFrame → σ × List GpuOp
  build_ui : σ → σ
  resize : σ → Nat → Nat → σ
  is_exit : σ → Bool
  handle_event : σ → Event → σ
  clear_color : σ → Color

/-- Default `update` body: `{}` — a no-op. -/
def default_update (s : σ) : σ := s

/-- Default `render` body: `{}` — a no-op recording no GPU work. -/
def default_render (s : σ) (_frame : SwapChainFrame) : σ × List GpuOp := (s, [])

/-- Default `build_ui` body: `{}` — a no-op. -/
def default_build_ui (s : σ) : σ := s

/-- Default `resize` body: `{}` — a no-op. -/
def default_resize (s : σ) (_width _height : Nat) : σ := s

/-- Default `is_exit` body: `false`. -/
def default_is_exit (_s : σ) : Bool := false

/-- Default `handle_event` body: `{}` — a no-op. -/
def default_handle_event (s : σ) (_e : Event) : σ := s

/-- Default `clear_color` body: `wgpu::Color::BLACK`. -/
def default_clear_color (_s : σ) : Color := Color.BLACK

/-- An Application variant overriding none of the optional hooks. -/
def default_application : Application σ :=
  { update := default_update
    render := default_render
    build_ui := default_build_ui
    resize := default_resize
    is_exit := default_is_exit
    handle_event := default_handle_event
    clear_color := default_clear_color }

/-- Context (src/context.rs). The window, imgui context, imgui platform and
imgui renderer are external collaborators whose internal state no claim
observes; the Rust `app: App` value splits into the hook table and the
application state. -/
structure Context (σ : Type) where
  rendering_context : RenderingContext
  app : Application σ
  appState : σ

/-- Per-tick environment: the verdicts of the external collaborators that
can fail during one handle_event call — the imgui prepare_frame call, and the two
possible swap-chain acquisition attempts. -/
structure FrameEnv where
  prepare_ok : Bool
  acquire1 : Bool
  acquire2 : Bool
deriving DecidableEq, Repr

/-- Result of one handle_event call that did not panic: the returned bool
(`true` = keep running), the updated context, the GPU work recorded on the
encoder this tick, and the surface manager action trace this tick. -/
structure TickResult (σ : Type) where
  keep_running : Bool
  ctx : Context σ
  gpu : List GpuOp
  sm : List SMEvent

/-- Context::handle_event (src/context.rs). `none` models a panic
(the expect on prepare_frame, or the fatal second acquisition failure inside
get_current_frame). The imgui platform own event bookkeeping touches no
state any claim observes and is elided. -/
def handle_event (ctx : Context σ) (env : FrameEnv) (event : Event) :
    Option (TickResult σ) :=
  let s1 := ctx.app.handle_event ctx.appState event
  if ctx.app.is_exit s1 then
    some ⟨false, { ctx with appState := s1 }, [], []⟩
  else
    match event with
    | Event.WindowEvent WindowEvent.CloseRequested =>
        some ⟨false, { ctx with appState := s1 }, [], []⟩
    | Event.WindowEvent (WindowEvent.Resized w h) =>
        some ⟨true,
          { ctx with
            appState := s1
            rendering_context := resize_request ctx.rendering_context w h }, [], []⟩
    | Event.WindowEvent WindowEvent.Other =>
        some ⟨true, { ctx with appState := s1 }, [], []⟩
    | Event.RedrawEventsCleared =>
        if env.prepare_ok then
          let s2 := ctx.app.update s1
          let s3 := ctx.app.build_ui s2
          match get_current_frame ctx.rendering_context env.acquire1 env.acquire2 with
          | (some frame, rc2, smtrace) =>
              let rendered := ctx.app.render s3 frame
              some ⟨true,
                { ctx with appState := rendered.1, rendering_context := rc2 },
                GpuOp.beginRenderPass (LoadOp.clear (ctx.app.clear_color s3))
                  :: rendered.2
                  ++ [GpuOp.beginRenderPass LoadOp.load, GpuOp.submit],
                smtrace⟩
          | (none, _, _) => none
        else none
    | Event.Other =>
        some ⟨true, { ctx with appState := s1 }, [], []⟩

/-- Context::run_application: drive handle_event over a stream of ticks;
when it returns false, set ControlFlow::Exit and stop. The returned bool
records whether the loop exited via that path rather than by running out of
modelled ticks; `none` propagates a panic. -/
def run_application (ctx : Context σ) : List (FrameEnv × Event) → Option (Context σ × Bool)
  | [] => some (ctx, false)
  | (env, e) :: rest =>
      match handle_event ctx env e with
      | none => none
      | some r => if r.keep_running then run_application r.ctx rest else some (r.ctx, true)

/-- wgpu::Features: a bitflags word; wgpu::Features::empty() is 0. -/
def Features.empty : Nat := 0

/-- The wgpu::DeviceDescriptor built inside RenderingContext::setup. -/
structure DeviceDescriptor where
  features : Nat
  shader_validation : Bool
deriving DecidableEq, Repr

/-- RenderingContext::setup. The adapter is external: its supported feature
word is an input. Returns the initial surface-manager state together with
the DeviceDescriptor passed to request_device, whose features field the
source computes as `adapter_features & features`. -/
def setup (window_width window_height : Nat) (adapter_features features : Nat) :
    RenderingContext × DeviceDescriptor :=
  let dd : DeviceDescriptor :=
    { features := Nat.land adapter_features features, shader_validation := true }
  let sc_desc : SwapChainDescriptor :=
    { usage := TextureUsage.OUTPUT_ATTACHMENT
      format := TextureFormat.Bgra8Unorm
      width := window_width
      height := window_height
      present_mode := PresentMode.Fifo }
  ({ sc_desc := sc_desc, swap_chain := create_swap_chain sc_desc, resize := false }, dd)

/-- Context::new: builds the window and collaborators, then calls
`RenderingContext::setup(&window, wgpu::Features::empty())`. Returns the
assembled context together with the device descriptor setup produced. -/
def Context.new (width height : Nat) (adapter_features : Nat)
    (app : Application σ) (s0 : σ) : Context σ × DeviceDescriptor :=
  let p := setup width height adapter_features Features.empty
  ({ rendering_context := p.1, app := app, appState := s0 }, p.2)

/-- Initial surface-manager state for an 800 by 600 window, as setup builds
it (no features requested, adapter advertising none). -/
def rc0 : RenderingContext := (setup 800 600 0 0).1

/-- A concrete capability over the unit state: records one render pass of
its own and keeps every default hook otherwise. -/
def unitApp : Application Unit :=
  { default_application with
    render := fun s _ => (s, [GpuOp.beginRenderPass LoadOp.load]) }

/-- A capability that signals exit on every tick. -/
def exitApp : Application Unit := { unitApp with is_exit := fun _ => true }

/-- A concrete orchestrator state over unitApp. -/
def ctx0 : Context Unit := { rendering_context := rc0, app := unitApp, appState := () }

/-- A concrete orchestrator state over exitApp. -/
def exitCtx : Context Unit := { ctx0 with app := exitApp }

/-- An environment in which every external collaborator succeeds. -/
def env0 : FrameEnv := ⟨true, true, true⟩

/-- Claim C8: a capability overriding no hook gets these defaults: update,
render, build_ui, resize and handle_event are no-ops (render records no GPU
work), is_exit is false, and clear_color is opaque black. -/
theorem default_hooks (σ : Type) (s : σ) (f : SwapChainFrame) (e : Event) (w h : Nat) :
    (default_application : Application σ).update s = s
    ∧ (default_application : Application σ).render s f = (s, [])
    ∧ (default_application : Application σ).build_ui s = s
    ∧ (default_application : Application σ).resize s w h = s
    ∧ (default_application : Application σ).is_exit s = false
    ∧ (default_application : Application σ).handle_event s e = s
    ∧ (default_application : Application σ).clear_color s = Color.BLACK
    ∧ Color.BLACK = { r := 0, g := 0, b := 0, a := 1 } :=
  ⟨rfl, rfl, rfl, rfl, rfl, rfl, rfl, rfl⟩

/-- Claim C10: setup requests the device with the intersection of the
adapter features and the requested features, so the requested set is always
within what the adapter supports (an unsupported request is dropped, not
refused); and Context.new always passes the empty feature set to setup. -/
theorem device_features_intersection (ww wh af fts : Nat) (app : Application σ) (s0 : σ) :
    (setup ww wh af fts).2.features = Nat.land af fts
    ∧ Nat.land ((setup ww wh af fts).2.features) af = (setup ww wh af fts).2.features
    ∧ (Context.new ww wh af app s0).2.features = 0 := by
  refine ⟨rfl, ?_, ?_⟩
  · show Nat.land (Nat.land af fts) af = Nat.land af fts
    apply Nat.eq_of_testBit_eq
    intro i
    show ((af &&& fts) &&& af).testBit i = (af &&& fts).testBit i
    simp [Nat.testBit_land]
    cases haf : af.testBit i <;> cases hf : fts.testBit i <;> simp
  · show Nat.land af 0 = 0
    apply Nat.eq_of_testBit_eq
    intro i
    show (af &&& 0).testBit i = Nat.testBit 0 i
    simp [Nat.testBit_land]

/-- An acquisition returns a frame only when the first attempt or the retry
succeeded. -/
theorem get_current_frame_some_of (rc : RenderingContext) (a1 a2 : Bool) (f : SwapChainFrame)
    (h : (get_current_frame rc a1 a2).1 = some f) : a1 = true ∨ a2 = true := by
  by_cases h1 : a1
  · exact Or.inl h1
  · by_cases h2 : a2
    · exact Or.inr h2
    · simp [get_current_frame, h1, h2] at h

/-- Claim C2: every redraw tick that completes records exactly one clear
pass using the clear color the capability declares at that point, then the
GPU work of the capability render call, then one load (preserve) pass for
the UI overlay, then a single submission — in that order. -/
theorem redraw_gpu_op_order (ctx : Context σ) (env : FrameEnv)
    (ctx2 : Context σ) (gpu : List GpuOp) (sm : List SMEvent)
    (h : handle_event ctx env Event.RedrawEventsCleared = some ⟨true, ctx2, gpu, sm⟩) :
    ∃ ops : List GpuOp,
      gpu = GpuOp.beginRenderPass (LoadOp.clear (ctx.app.clear_color
              (ctx.app.build_ui (ctx.app.update
                (ctx.app.handle_event ctx.appState Event.RedrawEventsCleared)))))
        :: ops ++ [GpuOp.beginRenderPass LoadOp.load, GpuOp.submit] := by
  by_cases he : ctx.app.is_exit (ctx.app.handle_event ctx.appState Event.RedrawEventsCleared)
  · simp [handle_event, he] at h
  · by_cases hp : env.prepare_ok
    · rcases hg : get_current_frame ctx.rendering_context env.acquire1 env.acquire2
        with ⟨fr, rc2, tr⟩
      cases fr with
      | none => simp [handle_event, he, hp, hg] at h
      | some f =>
          refine ⟨(ctx.app.render (ctx.app.build_ui (ctx.app.update
            (ctx.app.handle_event ctx.appState Event.RedrawEventsCleared))) f).2, ?_⟩
          simp [handle_event, he, hp, hg] at h
          exact h.2.1.symm
    · simp [handle_event, he, hp] at h

/-- Claim C7: the capability render hook only ever receives a frame obtained
from a successful acquisition: with the exit path and the prepare step out
of the way, a failed acquisition makes the whole tick fatal before render is
reached, and a returned frame — which exists only when one of the two
attempts succeeded — is passed to render as is. -/
theorem render_sees_valid_frame (ctx : Context σ) (env : FrameEnv)
    (hp : env.prepare_ok = true)
    (hexit : ctx.app.is_exit (ctx.app.handle_event ctx.appState Event.RedrawEventsCleared)
      = false) :
    ((get_current_frame ctx.rendering_context env.acquire1 env.acquire2).1 = none →
        handle_event ctx env Event.RedrawEventsCleared = none)
    ∧ ∀ f, (get_current_frame ctx.rendering_context env.acquire1 env.acquire2).1 = some f →
        (env.acquire1 = true ∨ env.acquire2 = true)
        ∧ handle_event ctx env Event.RedrawEventsCleared =
            some ⟨true,
              { ctx with
                appState := (ctx.app.render (ctx.app.build_ui (ctx.app.update
                    (ctx.app.handle_event ctx.appState Event.RedrawEventsCleared))) f).1
                rendering_context :=
                  (get_current_frame ctx.rendering_context env.acquire1 env.acquire2).2.1 },
              GpuOp.beginRenderPass (LoadOp.clear (ctx.app.clear_color
                  (ctx.app.build_ui (ctx.app.update
                    (ctx.app.handle_event ctx.appState Event.RedrawEventsCleared)))))
                :: (ctx.app.render (ctx.app.build_ui (ctx.app.update
                    (ctx.app.handle_event ctx.appState Event.RedrawEventsCleared))) f).2
                ++ [GpuOp.beginRenderPass LoadOp.load, GpuOp.submit],
              (get_current_frame ctx.rendering_context env.acquire1 env.acquire2).2.2⟩ := by
  rcases hg : get_current_frame ctx.rendering_context env.acquire1 env.acquire2
    with ⟨fr, rc2, tr⟩
  constructor
  · intro hnone
    cases fr with
    | none => simp [handle_event, hexit, hp, hg]
    | some f => simp at hnone
  · intro f hf
    cases fr with
    | none => simp at hf
    | some f2 =>
        have hf2 : f2 = f := by simpa using hf
        subst hf2
        constructor
        · exact get_current_frame_some_of ctx.rendering_context env.acquire1 env.acquire2 f2
            (by rw [hg])
        · simp [handle_event, hexit, hp, hg]

/-- Claim C4: resize_request touches only the recorded dimensions and the
pending flag (no swap-chain work); outside the redraw arm handle_event never
touches the swap chain and records no surface-manager action; and on the
redraw arm the swap chain after the tick is either untouched or exactly the
one the embedded get_current_frame call produced. -/
theorem reconfigure_only_in_acquisition (rc : RenderingContext) (w h : Nat)
    (ctx : Context σ) (env : FrameEnv) (e : Event) (r : TickResult σ) :
    ((resize_request rc w h).swap_chain = rc.swap_chain
      ∧ (resize_request rc w h).sc_desc.width = w
      ∧ (resize_request rc w h).sc_desc.height = h
      ∧ (resize_request rc w h).resize = true)
    ∧ (e ≠ Event.RedrawEventsCleared → handle_event ctx env e = some r →
        r.ctx.rendering_context.swap_chain = ctx.rendering_context.swap_chain ∧ r.sm = [])
    ∧ (handle_event ctx env e = some r →
        r.ctx.rendering_context.swap_chain = ctx.rendering_context.swap_chain
        ∨ r.ctx.rendering_context.swap_chain
            = (get_current_frame ctx.rendering_context env.acquire1 env.acquire2).2.1.swap_chain) := by
  have hbase : ∀ we : WindowEvent, e = Event.WindowEvent we ∨ e = Event.Other →
      handle_event ctx env e = some r →
      r.ctx.rendering_context.swap_chain = ctx.rendering_context.swap_chain ∧ r.sm = [] := by
    intro we hwe hr
    by_cases hx : ctx.app.is_exit (ctx.app.handle_event ctx.appState e)
    · simp [handle_event, hx] at hr
      rw [← hr]
      exact ⟨rfl, rfl⟩
    · rcases hwe with hwe | hwe <;> subst hwe
      · cases we with
        | CloseRequested =>
            simp [handle_event, hx] at hr
            rw [← hr]
            exact ⟨rfl, rfl⟩
        | Resized w2 h2 =>
            simp [handle_event, hx] at hr
            rw [← hr]
            exact ⟨by simp [resize_request], rfl⟩
        | Other =>
            simp [handle_event, hx] at hr
            rw [← hr]
            exact ⟨rfl, rfl⟩
      · simp [handle_event, hx] at hr
        rw [← hr]
        exact ⟨rfl, rfl⟩
  refine ⟨by simp [resize_request], ?_, ?_⟩
  · intro hne hr
    cases e with
    | WindowEvent we => exact hbase we (Or.inl rfl) hr
    | RedrawEventsCleared => exact absurd rfl hne
    | Other => exact hbase WindowEvent.Other (Or.inr rfl) hr
  · intro hr
    cases e with
    | WindowEvent we => exact Or.inl (hbase we (Or.inl rfl) hr).1
    | Other => exact Or.inl (hbase WindowEvent.Other (Or.inr rfl) hr).1
    | RedrawEventsCleared =>
        by_cases hx : ctx.app.is_exit (ctx.app.handle_event ctx.appState Event.RedrawEventsCleared)
        · simp [handle_event, hx] at hr
          rw [← hr]
          exact Or.inl rfl
        · by_cases hp : env.prepare_ok
          · rcases hg : get_current_frame ctx.rendering_context env.acquire1 env.acquire2
              with ⟨fr, rc2, tr⟩
            cases fr with
            | none => simp [handle_event, hx, hp, hg] at hr
            | some f =>
                simp [handle_event, hx, hp, hg] at hr
                rw [← hr]
                exact Or.inr rfl
          · simp [handle_event, hx, hp] at hr

/-- Claim C6: the capability event hook runs first and the exit decision is
taken on the post-hook state; handle_event signals termination exactly when
the capability signals exit or the event is a window-close request (with no
drawing and no surface work that tick, and the loop then stops at once,
processing no further ticks — also when both exit conditions coincide);
otherwise any non-panicking tick keeps the loop running. -/
theorem exit_semantics (ctx : Context σ) (env : FrameEnv) (e : Event) :
    ((ctx.app.is_exit (ctx.app.handle_event ctx.appState e) = true
        ∨ e = Event.WindowEvent WindowEvent.CloseRequested) →
      handle_event ctx env e
          = some ⟨false, { ctx with appState := ctx.app.handle_event ctx.appState e }, [], []⟩
        ∧ ∀ rest, run_application ctx ((env, e) :: rest)
            = some ({ ctx with appState := ctx.app.handle_event ctx.appState e }, true))
    ∧ (ctx.app.is_exit (ctx.app.handle_event ctx.appState e) = false →
        e ≠ Event.WindowEvent WindowEvent.CloseRequested →
        ∀ r, handle_event ctx env e = some r → r.keep_running = true) := by
  constructor
  · intro hstop
    have hhe : handle_event ctx env e
        = some ⟨false, { ctx with appState := ctx.app.handle_event ctx.appState e }, [], []⟩ := by
      by_cases hx : ctx.app.is_exit (ctx.app.handle_event ctx.appState e)
      · simp [handle_event, hx]
      · rcases hstop with hstop | hstop
        · exact absurd hstop hx
        · subst hstop
          simp [handle_event, hx]
    refine ⟨hhe, fun rest => ?_⟩
    simp [run_application, hhe]
  · intro hx hne r hr
    cases e with
    | WindowEvent we =>
        cases we with
        | CloseRequested => exact absurd rfl hne
        | Resized w2 h2 =>
            simp [handle_event, hx] at hr
            rw [← hr]
        | Other =>
            simp [handle_event, hx] at hr
            rw [← hr]
    | RedrawEventsCleared =>
        by_cases hp : env.prepare_ok
        · rcases hg : get_current_frame ctx.rendering_context env.acquire1 env.acquire2
            with ⟨fr, rc2, tr⟩
          cases fr with
          | none => simp [handle_event, hx, hp, hg] at hr
          | some f =>
              simp [handle_event, hx, hp, hg] at hr
              rw [← hr]
        · simp [handle_event, hx, hp] at hr
    | Other =>
        simp [handle_event, hx] at hr
        rw [← hr]

/-- Claim C9: handle_event never consults the capability resize hook — its
observable outcome is unchanged under an arbitrary replacement of that
hook — and a window-resize event is forwarded to the surface manager
resize_request (unless the capability signalled exit first). -/
theorem resize_hook_never_called (ctx : Context σ) (env : FrameEnv) (e : Event)
    (g : σ → Nat → Nat → σ) (w h : Nat) :
    Option.map
        (fun r : TickResult σ =>
          (r.keep_running, r.ctx.appState, r.ctx.rendering_context, r.gpu, r.sm))
        (handle_event { ctx with app := { ctx.app with resize := g } } env e)
      = Option.map
        (fun r : TickResult σ =>
          (r.keep_running, r.ctx.appState, r.ctx.rendering_context, r.gpu, r.sm))
        (handle_event ctx env e)
    ∧ handle_event ctx env (Event.WindowEvent (WindowEvent.Resized w h))
        = (if ctx.app.is_exit
              (ctx.app.handle_event ctx.appState (Event.WindowEvent (WindowEvent.Resized w h)))
              = true then
            some ⟨false,
              { ctx with appState :=
                  ctx.app.handle_event ctx.appState (Event.WindowEvent (WindowEvent.Resized w h)) },
              [], []⟩
          else
            some ⟨true,
              { ctx with
                appState :=
                  ctx.app.handle_event ctx.appState (Event.WindowEvent (WindowEvent.Resized w h))
                rendering_context := resize_request ctx.rendering_context w h },
              [], []⟩) := by
  constructor
  · by_cases hx : ctx.app.is_exit (ctx.app.handle_event ctx.appState e)
    · simp [handle_event, hx]
    · cases e with
      | WindowEvent we => cases we <;> simp [handle_event, hx]
      | RedrawEventsCleared =>
          by_cases hp : env.prepare_ok
          · rcases hg : get_current_frame ctx.rendering_context env.acquire1 env.acquire2
              with ⟨fr, rc2, tr⟩
            cases fr with
            | none => simp [handle_event, hx, hp, hg]
            | some f => simp [handle_event, hx, hp, hg]
          · simp [handle_event, hx, hp]
      | Other => simp [handle_event, hx]
  · by_cases hx : ctx.app.is_exit
        (ctx.app.handle_event ctx.appState (Event.WindowEvent (WindowEvent.Resized w h)))
    · simp [handle_event, hx]
    · simp [handle_event, hx]

/-- Witness for C2 at a concrete fully-succeeding tick over unitApp. -/
theorem redraw_gpu_op_order_witness :
    ∃ ops : List GpuOp,
      [GpuOp.beginRenderPass (LoadOp.clear Color.BLACK), GpuOp.beginRenderPass LoadOp.load,
          GpuOp.beginRenderPass LoadOp.load, GpuOp.submit]
        = GpuOp.beginRenderPass (LoadOp.clear (ctx0.app.clear_color
              (ctx0.app.build_ui (ctx0.app.update
                (ctx0.app.handle_event ctx0.appState Event.RedrawEventsCleared)))))
          :: ops ++ [GpuOp.beginRenderPass LoadOp.load, GpuOp.submit] :=
  redraw_gpu_op_order ctx0 env0 ctx0
    [GpuOp.beginRenderPass (LoadOp.clear Color.BLACK), GpuOp.beginRenderPass LoadOp.load,
      GpuOp.beginRenderPass LoadOp.load, GpuOp.submit]
    [SMEvent.attempt true]
    (by rfl)

/-- Witness for C3: from 800 by 600, two identical resize requests to
1024 by 768 and one successful acquisition. -/
theorem resize_coalescing_witness :
    (get_current_frame (apply_resizes rc0 [(1024, 768), (1024, 768)]) true true).2.2
        = [SMEvent.reconfigure 1024 768, SMEvent.attempt true]
    ∧ (get_current_frame (apply_resizes rc0 [(1024, 768), (1024, 768)]) true true).1
        = some ⟨1024, 768⟩ :=
  resize_coalescing rc0 [(1024, 768), (1024, 768)] 1024 768 true (by rfl)

/-- Witness for C4 at a concrete ignored event over unitApp. -/
theorem reconfigure_only_in_acquisition_witness :
    ((resize_request rc0 1024 768).swap_chain = rc0.swap_chain
      ∧ (resize_request rc0 1024 768).sc_desc.width = 1024
      ∧ (resize_request rc0 1024 768).sc_desc.height = 768
      ∧ (resize_request rc0 1024 768).resize = true)
    ∧ (ctx0.rendering_context.swap_chain = ctx0.rendering_context.swap_chain
        ∧ ([] : List SMEvent) = [])
    ∧ (ctx0.rendering_context.swap_chain = ctx0.rendering_context.swap_chain
        ∨ ctx0.rendering_context.swap_chain
            = (get_current_frame ctx0.rendering_context env0.acquire1
                env0.acquire2).2.1.swap_chain) := by
  have h := reconfigure_only_in_acquisition rc0 1024 768 ctx0 env0 Event.Other
    ⟨true, ctx0, [], []⟩
  exact ⟨h.1, h.2.1 (by decide) (by rfl), h.2.2 (by rfl)⟩

/-- Witness for C5 at the same concrete resize burst as C3. -/
theorem config_after_acquire_witness :
    (get_current_frame (apply_resizes rc0 [(1024, 768), (1024, 768)]) true true).2.1.resize
        = false
    ∧ (get_current_frame (apply_resizes rc0 [(1024, 768), (1024, 768)]) true
        true).2.1.sc_desc.width = 1024
    ∧ (get_current_frame (apply_resizes rc0 [(1024, 768), (1024, 768)]) true
        true).2.1.sc_desc.height = 768
    ∧ (get_current_frame (apply_resizes rc0 [(1024, 768), (1024, 768)]) true
        true).2.1.swap_chain
        = create_swap_chain (apply_resizes rc0 [(1024, 768), (1024, 768)]).sc_desc :=
  config_after_acquire rc0 [(1024, 768), (1024, 768)] 1024 768 true true (by rfl)

/-- Witness for C6: a tick in which the capability signals exit and the
window-close request arrives at once still terminates in one step. -/
theorem exit_semantics_witness :
    handle_event exitCtx env0 (Event.WindowEvent WindowEvent.CloseRequested)
        = some ⟨false, exitCtx, [], []⟩
    ∧ run_application exitCtx [(env0, Event.WindowEvent WindowEvent.CloseRequested)]
        = some (exitCtx, true) := by
  have h := (exit_semantics exitCtx env0 (Event.WindowEvent WindowEvent.CloseRequested)).1
    (Or.inl rfl)
  exact ⟨h.1, h.2 []⟩

/-- Witness for C7 at a concrete fully-succeeding tick over unitApp. -/
theorem render_sees_valid_frame_witness :
    (env0.acquire1 = true ∨ env0.acquire2 = true)
    ∧ handle_event ctx0 env0 Event.RedrawEventsCleared
        = some ⟨true, ctx0,
            [GpuOp.beginRenderPass (LoadOp.clear Color.BLACK), GpuOp.beginRenderPass LoadOp.load,
              GpuOp.beginRenderPass LoadOp.load, GpuOp.submit],
            [SMEvent.attempt true]⟩ := by
  have h := (render_sees_valid_frame ctx0 env0 rfl rfl).2 ⟨800, 600⟩ (by rfl)
  exact ⟨h.1, h.2⟩

end Greed
